import Mathlib

/-!
Shallow embedding of the cine-reservation API (src/api/views/views.py) and
proofs about its reservation ledger.

The request handlers `create_reservation`, `add_showing_movie`, `delete_movie`
and `login` are translated as pure functions from a database state (and the
request payload) to a response paired with the successor state; the single
`db.session.commit()` at the end of each handler corresponds to returning the
new state in one piece.  Optional JSON fields (`data.get(...)` returning
`None`) are `Option` values, and the truthiness tests of the source
(`if not title or not room or not seats`) are translated as the corresponding
falsiness checks on `Option String` / `Option Int`.
-/

namespace Cine

/-- Modelled from the spec: the `User` row of the model layer (the model file
itself is not among the sources; the spec describes a user as a unique
username, a hashed credential and an admin flag).  The stored hash is kept
abstract as a `String`. -/
structure User where
  id : Nat
  username : String
  password_hash : String
  is_admin : Bool
deriving DecidableEq

/-- Modelled from the spec: the `Movie` row (a showing).  The source keeps a
single mutable integer column `seats` — the remaining-seat counter.  The spec
also speaks of a total seat count; the source has no such column, so `total`
is a ghost field recording the seat count the row was created with.  It is
written only at creation and never read by any handler. -/
structure Movie where
  id : Nat
  title : String
  description : Option String
  room : String
  seats : Int
  total : Int
deriving DecidableEq

/-- Modelled from the spec: the `Reservation` row — references a showing and a
user and records the room at booking time.  `user_id` is `Option` because the
handler stores the raw `data.get("user_id")`, which may be `None`. -/
structure Reservation where
  movie_id : Nat
  user_id : Option Nat
  room_select : String
deriving DecidableEq

/-- The relational store: the three tables plus the primary-key counter the
store would use for the next inserted showing. -/
structure DBState where
  movies : List Movie
  reservations : List Reservation
  users : List User
  nextMovieId : Nat
deriving DecidableEq

/-- An HTTP response: the `message` of the returned JSON and the status code. -/
structure Resp where
  message : String
  status : Nat
deriving DecidableEq

def respNotFoundMovie : Resp := ⟨"Movie not found", 404⟩

def respNoSeats : Resp := ⟨"Don't have available seats to this movie", 400⟩

def respReservationCreated : Resp := ⟨"Reservation created successfully", 201⟩

def respFieldsRequired : Resp := ⟨"Title, room and seats are required", 400⟩

def respRoomInUse : Resp := ⟨"Room already in use", 400⟩

def respMovieAdded : Resp := ⟨"Movie added successfully", 201⟩

def respMovieDeleted : Resp := ⟨"Movie deleted successfully", 200⟩

/-- Primary-key lookup, `models.Movie.query.get(movie_id)`; a `None` id
returns `None`. -/
def getMovie (st : DBState) : Option Nat → Option Movie
  | none => none
  | some i => st.movies.find? (fun m => m.id == i)

/-- Python truthiness of an optional string: `None` and `""` are falsy. -/
def truthyS : Option String → Bool
  | none => false
  | some s => !(s == "")

/-- Python truthiness of an optional integer: `None` and `0` are falsy.
Note a negative integer is truthy. -/
def truthyI : Option Int → Bool
  | none => false
  | some n => !(n == 0)

/-- views.py lines 277-298, `create_reservation` (POST /reservations):
look up the movie by id; 404 if absent; 400 if `movie.seats <= 0`;
otherwise decrement the seat counter, insert one reservation row carrying the
request's `movie_id` and `user_id` and the movie's room, and commit. -/
def create_reservation (st : DBState) (movie_id user_id : Option Nat) :
    Resp × DBState :=
  match getMovie st movie_id with
  | none => (respNotFoundMovie, st)
  | some movie =>
    if movie.seats ≤ 0 then
      (respNoSeats, st)
    else
      let movies' := st.movies.map
        (fun m => if m.id == movie.id then { m with seats := m.seats - 1 } else m)
      let r : Reservation :=
        { movie_id := movie.id, user_id := user_id, room_select := movie.room }
      (respReservationCreated,
        { st with movies := movies', reservations := st.reservations ++ [r] })

/-- views.py lines 336-355, body of `add_showing_movie` (POST /showing_movies,
after the admin gate): reject if title, room or seats is falsy; reject if a
movie already occupies the room; otherwise insert the new movie. -/
def add_showing_movie (st : DBState) (title description room : Option String)
    (seats : Option Int) : Resp × DBState :=
  if truthyS title && truthyS room && truthyI seats then
    match st.movies.find? (fun m => m.room == room.getD "") with
    | some _ => (respRoomInUse, st)
    | none =>
      let s := seats.getD 0
      let m : Movie :=
        { id := st.nextMovieId, title := title.getD "", description := description,
          room := room.getD "", seats := s, total := s }
      (respMovieAdded,
        { st with movies := st.movies ++ [m], nextMovieId := st.nextMovieId + 1 })
  else
    (respFieldsRequired, st)

/-- views.py lines 378-387, body of `delete_movie` (DELETE /movies/id, after
the admin gate): 404 if the movie is absent; otherwise delete every
reservation whose `movie_id` matches, delete the movie, and commit.  The
movie itself is removed by id, its primary key. -/
def delete_movie (st : DBState) (movie_id : Nat) : Resp × DBState :=
  match st.movies.find? (fun m => m.id == movie_id) with
  | none => (respNotFoundMovie, st)
  | some _ =>
    (respMovieDeleted,
      { st with
        reservations := st.reservations.filter (fun r => !(r.movie_id == movie_id)),
        movies := st.movies.filter (fun m => !(m.id == movie_id)) })

/-- The outcome of a login request.  A successful login returns the identity
data of the 200 body (token issuance is an external collaborator); a failure
returns the message and the status. -/
inductive LoginResult where
  | ok (id : Nat) (is_admin : Bool)
  | err (message : String) (status : Nat)
deriving DecidableEq

/-- First user whose username column equals the given value,
`models.User.query.filter_by(username=username).first()`; a `None` username
matches no row. -/
def findUserByName (st : DBState) (username : Option String) : Option User :=
  st.users.find? (fun u => username == some u.username)

/-- views.py lines 156-172, `login` (POST /login).  `check_password` lives in
the model layer, which is not among the sources; the spec treats credential
verification as a black-box collaborator, so it is a parameter `verify`. -/
def login (verify : User → Option String → Bool) (st : DBState)
    (username password : Option String) : LoginResult :=
  match findUserByName st username with
  | some user =>
    if verify user password then
      .ok user.id user.is_admin
    else
      .err "Credentials are incorrect. Please try again." 401
  | none => .err "Credentials are incorrect. Please try again." 401

/-- The operations the spec's invariant quantifies over. -/
inductive Op where
  | reserve (movie_id user_id : Option Nat)
  | addShowing (title description room : Option String) (seats : Option Int)
  | deleteShowing (movie_id : Nat)
deriving DecidableEq

/-- One operation applied to the store (the state part of the handler). -/
def step (st : DBState) : Op → DBState
  | .reserve mid uid => (create_reservation st mid uid).2
  | .addShowing t d r s => (add_showing_movie st t d r s).2
  | .deleteShowing i => (delete_movie st i).2

/-- A sequence of operations applied to the store. -/
def run (st : DBState) (ops : List Op) : DBState :=
  ops.foldl step st

/-- The store right after `db.create_all()`: empty tables (the bootstrap
admin user is irrelevant to the showing and reservation tables). -/
def init0 : DBState :=
  { movies := [], reservations := [], users := [], nextMovieId := 1 }

/-- Number of live reservations referencing showing `i`. -/
def resCount (st : DBState) (i : Nat) : Nat :=
  (st.reservations.filter (fun r => r.movie_id == i)).length

/-- The spec's seat invariant: every showing has
`0 <= remaining_seats <= total_seats`, and its live reservations never
outnumber its total seats. -/
def SeatInvariant (st : DBState) : Prop :=
  ∀ m ∈ st.movies,
    0 ≤ m.seats ∧ m.seats ≤ m.total ∧ (resCount st m.id : Int) ≤ m.total

instance (st : DBState) : Decidable (SeatInvariant st) := by
  unfold SeatInvariant; infer_instance

/-- Rooms are pairwise distinct: at most one showing per room. -/
def RoomsDistinct (st : DBState) : Prop :=
  (st.movies.map Movie.room).Nodup

instance (st : DBState) : Decidable (RoomsDistinct st) := by
  unfold RoomsDistinct; infer_instance

/-- Every movie row of `st` whose id differs from `i` is still a row of
`st'`. -/
def OtherMoviesKept (st st' : DBState) (i : Nat) : Prop :=
  ∀ x ∈ st.movies, x.id ≠ i → x ∈ st'.movies

/-- A store holding one two-seat showing, used by concrete witnesses. -/
def w1State : DBState :=
  { movies := [{ id := 1, title := "Film", description := none, room := "Room 1",
                 seats := 2, total := 2 }],
    reservations := [], users := [], nextMovieId := 2 }

/-- The showing referenced by `mid` exists in `st` but has no seat left. -/
def NoSeatsAt (st : DBState) (mid : Option Nat) : Prop :=
  ∃ m, getMovie st mid = some m ∧ m.seats ≤ 0

instance (st : DBState) (mid : Option Nat) : Decidable (NoSeatsAt st mid) := by
  unfold NoSeatsAt
  cases getMovie st mid with
  | none => exact isFalse (by simp)
  | some m => exact decidable_of_iff (m.seats ≤ 0) (by simp)

/-- Every reservation row references an existing showing and an existing
user — the property C9 asserts of the store. -/
def RefsExist (st : DBState) : Prop :=
  ∀ r ∈ st.reservations,
    (∃ m ∈ st.movies, m.id = r.movie_id) ∧ (∃ u ∈ st.users, some u.id = r.user_id)

instance (st : DBState) : Decidable (RefsExist st) := by
  unfold RefsExist; infer_instance

/-- A store with one free showing and one user (id 7). -/
def c9State : DBState :=
  { movies := [{ id := 1, title := "Film", description := none, room := "Room 1",
                 seats := 1, total := 1 }],
    reservations := [],
    users := [{ id := 7, username := "alice", password_hash := "h", is_admin := false }],
    nextMovieId := 2 }

/-- The reservation appended by a successful request is bound to a showing
that exists in the pre-state. -/
def ReservesExistingShowing (st : DBState) (mid uid : Option Nat) : Prop :=
  ∃ m, getMovie st mid = some m ∧
    (create_reservation st mid uid).2.reservations =
      st.reservations ++ [{ movie_id := m.id, user_id := uid, room_select := m.room }]

/-- A store with one registered user, used by the login witness. -/
def c10State : DBState :=
  { movies := [], reservations := [],
    users := [{ id := 7, username := "alice", password_hash := "h", is_admin := false }],
    nextMovieId := 1 }

/-- A credential verifier that rejects everything. -/
def rejectAll : User → Option String → Bool := fun _ _ => false

/-!
Fine-grained model of `create_reservation` for the concurrency claim.
The handler makes two database round trips: the lookup-and-check
(views.py lines 281-286, one SELECT) and the write-back
(lines 288-296, the decrement, the INSERT and the commit).
The source takes no row lock and opens no serializable transaction, so a
second request may run its own lookup between the two; `movie.seats -= 1`
writes `localSeats - 1` computed from the session-local value read in the
first phase.  Each phase is atomic here, which is generous to the code.
-/

/-- Shared store restricted to one showing: its seat counter and how many
reservation rows reference it. -/
structure ShowState where
  seats : Int
  reservations : Nat
deriving DecidableEq

/-- Where a request handler stands: not yet run, past the availability check
(holding the seat count its session read), or finished with a status code. -/
inductive Phase where
  | ready
  | checked (localSeats : Int)
  | finished (status : Nat)
deriving DecidableEq

/-- One atomic phase of the handler against the shared store. -/
def phaseStep (sh : ShowState) : Phase → ShowState × Phase
  | .ready =>
    if sh.seats ≤ 0 then (sh, .finished 400) else (sh, .checked sh.seats)
  | .checked l =>
    ({ seats := l - 1, reservations := sh.reservations + 1 }, .finished 201)
  | .finished s => (sh, .finished s)

/-- Two concurrent requests against the same showing. -/
structure TwoReqs where
  shared : ShowState
  t1 : Phase
  t2 : Phase
deriving DecidableEq

/-- Run one scheduler pick: `true` advances the first request. -/
def schedStep (sys : TwoReqs) (pick : Bool) : TwoReqs :=
  if pick then
    { sys with shared := (phaseStep sys.shared sys.t1).1, t1 := (phaseStep sys.shared sys.t1).2 }
  else
    { sys with shared := (phaseStep sys.shared sys.t2).1, t2 := (phaseStep sys.shared sys.t2).2 }

/-- Run a whole schedule. -/
def runSched (sys : TwoReqs) (sched : List Bool) : TwoReqs :=
  sched.foldl schedStep sys

/-- The row inserted by a successful `add_showing_movie`. -/
def newShowing (st : DBState) (t d r : Option String) (s : Option Int) : Movie :=
  { id := st.nextMovieId, title := t.getD "", description := d,
    room := r.getD "", seats := s.getD 0, total := s.getD 0 }

/-- Well-formedness of the store: every movie id is below the id counter,
seat counters are nonnegative, the free seats plus the booked rows of a
showing never exceed its created capacity, every reservation's showing id is
below the counter, and movie ids are pairwise distinct. -/
def WF (st : DBState) : Prop :=
  (∀ m ∈ st.movies,
     m.id < st.nextMovieId ∧ 0 ≤ m.seats ∧
       m.seats + (resCount st m.id : Int) ≤ m.total) ∧
  (∀ r ∈ st.reservations, r.movie_id < st.nextMovieId) ∧
  (st.movies.map Movie.id).Nodup

/-- An operation whose seat argument (when it has one) is nonnegative. -/
def GoodOp : Op → Prop
  | .addShowing _ _ _ s => 0 ≤ s.getD 0
  | _ => True

instance : DecidablePred GoodOp := by
  intro op
  cases op with
  | reserve mid uid => exact isTrue trivial
  | addShowing t d r s => unfold GoodOp; infer_instance
  | deleteShowing i => exact isTrue trivial

/-- A concrete operation sequence exercising creation, booking, exhaustion
and deletion. -/
def c2Ops : List Op :=
  [Op.addShowing (some "Film") none (some "Room 1") (some 2),
   Op.reserve (some 1) (some 7),
   Op.addShowing (some "Other") none (some "Room 2") (some 1),
   Op.reserve (some 1) (some 8),
   Op.reserve (some 1) (some 9),
   Op.deleteShowing 2]

/-- Every store reachable from the fresh store has pairwise-distinct rooms. -/
def RoomsAlwaysDistinct : Prop :=
  ∀ ops : List Op, RoomsDistinct (run init0 ops)

/-- Some showing of `st` occupies room `r`. -/
def RoomOccupied (st : DBState) (r : String) : Prop :=
  ∃ m ∈ st.movies, m.room = r

instance (st : DBState) (r : String) : Decidable (RoomOccupied st r) := by
  unfold RoomOccupied; infer_instance

/-- A store whose only showing sits in Room 1. -/
def c6State : DBState :=
  { movies := [{ id := 1, title := "Film", description := none, room := "Room 1",
                 seats := 2, total := 2 }],
    reservations := [], users := [], nextMovieId := 2 }

/-- Deleting an absent showing answers 404 and leaves the store unchanged. -/
def DeleteMissingBehaviour (st : DBState) (i : Nat) : Prop :=
  getMovie st (some i) = none → delete_movie st i = (respNotFoundMovie, st)

/-- Deleting an existing showing answers 200 and, in the single returned
state, removes the showing and exactly the reservations referencing it, so
none reference it afterwards. -/
def DeleteFoundBehaviour (st : DBState) (i : Nat) : Prop :=
  ∀ m, getMovie st (some i) = some m →
    (delete_movie st i).1 = respMovieDeleted ∧
    (delete_movie st i).2.movies = st.movies.filter (fun x => !(x.id == i)) ∧
    (delete_movie st i).2.reservations =
      st.reservations.filter (fun r => !(r.movie_id == i)) ∧
    resCount (delete_movie st i).2 i = 0

/-- A store with a showing and two reservations referencing it. -/
def c7State : DBState :=
  { movies := [{ id := 1, title := "Film", description := none, room := "Room 1",
                 seats := 0, total := 2 }],
    reservations := [{ movie_id := 1, user_id := some 7, room_select := "Room 1" },
                     { movie_id := 1, user_id := some 8, room_select := "Room 1" }],
    users := [], nextMovieId := 2 }

/-- Runs `n` consecutive reservation requests for showing `i` by `uid`. -/
def reserveN (st : DBState) (i : Nat) (uid : Option Nat) : Nat → DBState
  | 0 => st
  | n + 1 => (create_reservation (reserveN st i uid n) (some i) uid).2

/-- The depletion behaviour C8 asserts of the `n`-th consecutive request. -/
def DepletionAt (st : DBState) (i : Nat) (uid : Option Nat) (m : Movie)
    (n : Nat) : Prop :=
  ((n : Int) ≤ m.total →
    getMovie (reserveN st i uid n) (some i) = some { m with seats := m.total - n }) ∧
  ((n : Int) < m.total →
    (create_reservation (reserveN st i uid n) (some i) uid).1 =
      respReservationCreated) ∧
  (m.total ≤ (n : Int) →
    (create_reservation (reserveN st i uid n) (some i) uid).1 = respNoSeats)

end Cine

namespace Cine

theorem find?_map_movies (l : List Movie) (i : Nat) (f : Movie → Movie)
    (hf : ∀ m, (f m).id = m.id) :
    (l.map f).find? (fun m => m.id == i) = (l.find? (fun m => m.id == i)).map f := by
  induction l with
  | nil => rfl
  | cons a t ih =>
    simp only [List.map_cons, List.find?]
    rw [hf a]
    cases h : (a.id == i) with
    | true => rfl
    | false => simpa using ih

theorem reserve_success (st : DBState) (mid uid : Option Nat) (m : Movie)
    (h : getMovie st mid = some m) (hs : 0 < m.seats) :
    create_reservation st mid uid =
      (respReservationCreated,
        { st with
          movies := st.movies.map
            (fun x => if x.id == m.id then { x with seats := x.seats - 1 } else x),
          reservations := st.reservations ++
            [{ movie_id := m.id, user_id := uid, room_select := m.room }] }) := by
  unfold create_reservation
  rw [h]
  simp [not_le.mpr hs]

theorem getMovie_after_reserve (st : DBState) (mid uid : Option Nat) (m : Movie)
    (h : getMovie st mid = some m) (hs : 0 < m.seats) :
    getMovie (create_reservation st mid uid).2 mid = some { m with seats := m.seats - 1 } := by
  cases mid with
  | none => simp [getMovie] at h
  | some i =>
    rw [reserve_success st (some i) uid m h hs]
    simp only [getMovie] at h ⊢
    rw [find?_map_movies st.movies i _
      (fun x => by by_cases hx : (x.id == m.id) = true <;> simp [hx]), h]
    simp

theorem reserve_notfound (st : DBState) (mid uid : Option Nat)
    (hm : getMovie st mid = none) :
    create_reservation st mid uid = (respNotFoundMovie, st) := by
  unfold create_reservation
  rw [hm]

theorem reserve_noseats (st : DBState) (mid uid : Option Nat) (m : Movie)
    (hm : getMovie st mid = some m) (hs : m.seats ≤ 0) :
    create_reservation st mid uid = (respNoSeats, st) := by
  unfold create_reservation
  rw [hm]
  simp [hs]

theorem others_kept_reserve (st : DBState) (mid uid : Option Nat) (m : Movie)
    (h : getMovie st mid = some m) (hs : 0 < m.seats) :
    OtherMoviesKept st (create_reservation st mid uid).2 m.id := by
  intro x hx hne
  rw [reserve_success st mid uid m h hs]
  refine List.mem_map.mpr ⟨x, hx, ?_⟩
  simp [hne]

theorem filter_filter_ne (res : List Reservation) (i j : Nat) (hne : j ≠ i) :
    (res.filter (fun r => !(r.movie_id == i))).filter (fun r => r.movie_id == j) =
      res.filter (fun r => r.movie_id == j) := by
  induction res with
  | nil => rfl
  | cons a t ih =>
    by_cases h : a.movie_id = i
    · have hj : (a.movie_id == j) = false := by
        simp only [beq_eq_false_iff_ne, ne_eq]
        intro hc
        exact hne (hc ▸ h)
      simp [List.filter_cons, h, hj, ih, Ne.symm hne]
    · simp [List.filter_cons, h, ih]

theorem filter_self_of_ne (res : List Reservation) (i : Nat)
    (h : ∀ r ∈ res, r.movie_id ≠ i) :
    res.filter (fun r => r.movie_id == i) = [] := by
  induction res with
  | nil => rfl
  | cons a t ih =>
    have ha : (a.movie_id == i) = false := by
      simp only [beq_eq_false_iff_ne, ne_eq]
      exact h a (List.mem_cons_self a t)
    simp [List.filter_cons, ha, ih fun r hr => h r (List.mem_cons_of_mem a hr)]

theorem length_filter_append_one (res : List Reservation) (r0 : Reservation) (j : Nat) :
    ((res ++ [r0]).filter (fun r => r.movie_id == j)).length =
      (res.filter (fun r => r.movie_id == j)).length +
        (if r0.movie_id = j then 1 else 0) := by
  rw [List.filter_append]
  by_cases h : r0.movie_id = j
  · simp [List.filter_cons, h]
  · simp [List.filter_cons, h]

theorem resCount_reserve (st : DBState) (movies' : List Movie) (r0 : Reservation)
    (j : Nat) :
    resCount { st with movies := movies', reservations := st.reservations ++ [r0] } j =
      resCount st j + (if r0.movie_id = j then 1 else 0) := by
  unfold resCount
  exact length_filter_append_one st.reservations r0 j

theorem filter_not_self (res : List Reservation) (i : Nat) :
    (res.filter (fun r => !(r.movie_id == i))).filter (fun r => r.movie_id == i) = [] := by
  induction res with
  | nil => rfl
  | cons a t ih =>
    by_cases h : a.movie_id = i <;> simp [List.filter_cons, h, ih]

theorem add_invalid (st : DBState) (t d r : Option String) (s : Option Int)
    (hv : (truthyS t && truthyS r && truthyI s) = false) :
    add_showing_movie st t d r s = (respFieldsRequired, st) := by
  unfold add_showing_movie
  simp [hv]

theorem add_conflict (st : DBState) (t d r : Option String) (s : Option Int)
    (m0 : Movie) (hv : (truthyS t && truthyS r && truthyI s) = true)
    (hf : st.movies.find? (fun m => m.room == r.getD "") = some m0) :
    add_showing_movie st t d r s = (respRoomInUse, st) := by
  unfold add_showing_movie
  simp [hv, hf]

theorem add_created (st : DBState) (t d r : Option String) (s : Option Int)
    (hv : (truthyS t && truthyS r && truthyI s) = true)
    (hf : st.movies.find? (fun m => m.room == r.getD "") = none) :
    add_showing_movie st t d r s =
      (respMovieAdded,
        { st with movies := st.movies ++ [newShowing st t d r s],
                  nextMovieId := st.nextMovieId + 1 }) := by
  unfold add_showing_movie newShowing
  simp [hv, hf]

theorem delete_missing (st : DBState) (i : Nat)
    (hf : st.movies.find? (fun m => m.id == i) = none) :
    delete_movie st i = (respNotFoundMovie, st) := by
  unfold delete_movie
  rw [hf]

theorem delete_found (st : DBState) (i : Nat) (m : Movie)
    (hf : st.movies.find? (fun m => m.id == i) = some m) :
    delete_movie st i =
      (respMovieDeleted,
        { st with
          reservations := st.reservations.filter (fun r => !(r.movie_id == i)),
          movies := st.movies.filter (fun m => !(m.id == i)) }) := by
  unfold delete_movie
  rw [hf]

theorem wf_seatInvariant (st : DBState) (h : WF st) : SeatInvariant st := by
  intro m hm
  obtain ⟨h1, -, -⟩ := h
  obtain ⟨-, hs, hc⟩ := h1 m hm
  refine ⟨hs, ?_, ?_⟩ <;> omega

theorem wf_reserve (st : DBState) (mid uid : Option Nat) (h : WF st) :
    WF (create_reservation st mid uid).2 := by
  obtain ⟨h1, h2, h3⟩ := h
  cases hm : getMovie st mid with
  | none => rw [reserve_notfound st mid uid hm]; exact ⟨h1, h2, h3⟩
  | some m =>
    by_cases hs : m.seats ≤ 0
    · rw [reserve_noseats st mid uid m hm hs]; exact ⟨h1, h2, h3⟩
    · rw [reserve_success st mid uid m hm (not_le.mp hs)]
      have hmem : m ∈ st.movies := by
        cases mid with
        | none => simp [getMovie] at hm
        | some i => exact List.mem_of_find?_eq_some hm
      have hidlt : m.id < st.nextMovieId := (h1 m hmem).1
      refine ⟨?_, ?_, ?_⟩
      · intro m' hm'
        obtain ⟨x, hx, hfx⟩ := List.mem_map.mp hm'
        rw [resCount_reserve]
        by_cases hid : (x.id == m.id) = true
        · have hxm : x = m :=
            List.inj_on_of_nodup_map h3 hx hmem (by simpa using hid)
          subst hxm
          rw [if_pos hid] at hfx
          subst hfx
          simp only [if_pos rfl]
          obtain ⟨-, -, hcnt⟩ := h1 x hx
          refine ⟨hidlt, by omega, ?_⟩
          push_cast
          omega
        · rw [if_neg hid] at hfx
          subst hfx
          have hne : m.id ≠ x.id := fun hc => hid (by simp [hc])
          rw [if_neg hne]
          obtain ⟨ha, hb, hc⟩ := h1 x hx
          exact ⟨ha, hb, by omega⟩
      · intro r hr
        rcases List.mem_append.mp hr with hold | hnew
        · exact h2 r hold
        · have : r = { movie_id := m.id, user_id := uid, room_select := m.room } := by
            simpa using hnew
          rw [this]
          exact hidlt
      · rw [List.map_map]
        have : st.movies.map (Movie.id ∘ fun x =>
            if x.id == m.id then { x with seats := x.seats - 1 } else x) =
            st.movies.map Movie.id := by
          apply List.map_congr_left
          intro a _
          by_cases hc : a.id = m.id <;> simp [hc]
        rw [this]
        exact h3

theorem wf_add (st : DBState) (t d r : Option String) (s : Option Int)
    (h : WF st) (hs : 0 ≤ s.getD 0) :
    WF (add_showing_movie st t d r s).2 := by
  obtain ⟨h1, h2, h3⟩ := h
  by_cases hv : (truthyS t && truthyS r && truthyI s) = true
  · cases hf : st.movies.find? (fun m => m.room == r.getD "") with
    | some m0 => rw [add_conflict st t d r s m0 hv hf]; exact ⟨h1, h2, h3⟩
    | none =>
      rw [add_created st t d r s hv hf]
      refine ⟨?_, ?_, ?_⟩
      · intro m' hm'
        rcases List.mem_append.mp hm' with hold | hnew
        · obtain ⟨ha, hb, hc⟩ := h1 m' hold
          exact ⟨Nat.lt_trans ha (Nat.lt_succ_self _), hb, hc⟩
        · have hm'eq : m' = newShowing st t d r s := by simpa using hnew
          subst hm'eq
          refine ⟨Nat.lt_succ_self _, hs, ?_⟩
          have hzero :
              resCount { st with movies := st.movies ++ [newShowing st t d r s],
                                 nextMovieId := st.nextMovieId + 1 }
                (newShowing st t d r s).id = 0 := by
            unfold resCount newShowing
            rw [filter_self_of_ne]
            · rfl
            · intro rr hr
              exact Nat.ne_of_lt (h2 rr hr)
          rw [hzero]
          unfold newShowing
          simp
      · intro rr hr
        exact Nat.lt_trans (h2 rr hr) (Nat.lt_succ_self _)
      · rw [List.map_append]
        rw [List.nodup_append]
        refine ⟨h3, by simp, ?_⟩
        intro a ha hb
        obtain ⟨x, hx, hxa⟩ := List.mem_map.mp ha
        have hlt : x.id < st.nextMovieId := (h1 x hx).1
        have : a = st.nextMovieId := by
          simpa [newShowing] using hb
        rw [← hxa] at this
        exact absurd this (Nat.ne_of_lt hlt)
  · rw [add_invalid st t d r s (by simpa using hv)]
    exact ⟨h1, h2, h3⟩

theorem wf_delete (st : DBState) (i : Nat) (h : WF st) :
    WF (delete_movie st i).2 := by
  obtain ⟨h1, h2, h3⟩ := h
  cases hf : st.movies.find? (fun m => m.id == i) with
  | none => rw [delete_missing st i hf]; exact ⟨h1, h2, h3⟩
  | some m0 =>
    rw [delete_found st i m0 hf]
    refine ⟨?_, ?_, ?_⟩
    · intro m' hm'
      have hmem := List.mem_filter.mp hm'
      obtain ⟨ha, hb, hc⟩ := h1 m' hmem.1
      have hne : m'.id ≠ i := by simpa using hmem.2
      refine ⟨ha, hb, ?_⟩
      have : resCount { st with
          reservations := st.reservations.filter (fun r => !(r.movie_id == i)),
          movies := st.movies.filter (fun m => !(m.id == i)) } m'.id =
          resCount st m'.id := by
        unfold resCount
        rw [filter_filter_ne st.reservations i m'.id hne]
      rw [this]
      exact hc
    · intro rr hr
      exact h2 rr (List.mem_of_mem_filter hr)
    · exact ((List.filter_sublist st.movies).map Movie.id).nodup h3

theorem wf_step (st : DBState) (op : Op) (h : WF st) (hop : GoodOp op) :
    WF (step st op) := by
  cases op with
  | reserve mid uid => exact wf_reserve st mid uid h
  | addShowing t d r s => exact wf_add st t d r s h hop
  | deleteShowing i => exact wf_delete st i h

theorem wf_run (st : DBState) (ops : List Op) (h : WF st)
    (hops : ∀ op ∈ ops, GoodOp op) : WF (run st ops) := by
  induction ops generalizing st with
  | nil => exact h
  | cons op t ih =>
    exact ih (step st op)
      (wf_step st op h (hops op (List.mem_cons_self op t)))
      (fun o ho => hops o (List.mem_cons_of_mem op ho))

theorem wf_init : WF init0 := by
  refine ⟨?_, ?_, ?_⟩ <;> simp [init0]

theorem rooms_reserve (st : DBState) (mid uid : Option Nat) (h : RoomsDistinct st) :
    RoomsDistinct (create_reservation st mid uid).2 := by
  cases hm : getMovie st mid with
  | none => rw [reserve_notfound st mid uid hm]; exact h
  | some m =>
    by_cases hs : m.seats ≤ 0
    · rw [reserve_noseats st mid uid m hm hs]; exact h
    · rw [reserve_success st mid uid m hm (not_le.mp hs)]
      unfold RoomsDistinct at h ⊢
      rw [List.map_map]
      have : st.movies.map (Movie.room ∘ fun x =>
          if x.id == m.id then { x with seats := x.seats - 1 } else x) =
          st.movies.map Movie.room := by
        apply List.map_congr_left
        intro a _
        by_cases hc : a.id = m.id <;> simp [hc]
      rw [this]
      exact h

theorem rooms_add (st : DBState) (t d r : Option String) (s : Option Int)
    (h : RoomsDistinct st) : RoomsDistinct (add_showing_movie st t d r s).2 := by
  by_cases hv : (truthyS t && truthyS r && truthyI s) = true
  · cases hf : st.movies.find? (fun m => m.room == r.getD "") with
    | some m0 => rw [add_conflict st t d r s m0 hv hf]; exact h
    | none =>
      rw [add_created st t d r s hv hf]
      unfold RoomsDistinct at h ⊢
      rw [List.map_append, List.nodup_append]
      refine ⟨h, by simp, ?_⟩
      intro a ha hb
      obtain ⟨x, hx, hxa⟩ := List.mem_map.mp ha
      have hnone := List.find?_eq_none.mp hf x hx
      have : a = r.getD "" := by simpa [newShowing] using hb
      rw [← hxa] at this
      exact hnone (by simp [this])
  · rw [add_invalid st t d r s (by simpa using hv)]; exact h

theorem rooms_delete (st : DBState) (i : Nat) (h : RoomsDistinct st) :
    RoomsDistinct (delete_movie st i).2 := by
  cases hf : st.movies.find? (fun m => m.id == i) with
  | none => rw [delete_missing st i hf]; exact h
  | some m0 =>
    rw [delete_found st i m0 hf]
    unfold RoomsDistinct at h ⊢
    exact ((List.filter_sublist st.movies).map Movie.room).nodup h

theorem rooms_step (st : DBState) (op : Op) (h : RoomsDistinct st) :
    RoomsDistinct (step st op) := by
  cases op with
  | reserve mid uid => exact rooms_reserve st mid uid h
  | addShowing t d r s => exact rooms_add st t d r s h
  | deleteShowing i => exact rooms_delete st i h

theorem rooms_run (st : DBState) (ops : List Op) (h : RoomsDistinct st) :
    RoomsDistinct (run st ops) := by
  induction ops generalizing st with
  | nil => exact h
  | cons op t ih => exact ih (step st op) (rooms_step st op h)

theorem reserveN_getMovie (st : DBState) (i : Nat) (uid : Option Nat) (m : Movie)
    (h : getMovie st (some i) = some m) :
    ∀ n : Nat, (n : Int) ≤ m.seats →
      getMovie (reserveN st i uid n) (some i) =
        some { m with seats := m.seats - n } := by
  intro n
  induction n with
  | zero =>
    intro _
    simpa using h
  | succ k ih =>
    intro hn
    have hn' : ((k : Int) + 1) ≤ m.seats := by push_cast at hn; omega
    have hmk := ih (by omega)
    have hpos : 0 < ({ m with seats := m.seats - (k : Int) } : Movie).seats := by
      show 0 < m.seats - (k : Int)
      omega
    have hstep := getMovie_after_reserve (reserveN st i uid k) (some i) uid _ hmk hpos
    show getMovie (create_reservation (reserveN st i uid k) (some i) uid).2 (some i) = _
    rw [hstep]
    simp only [Option.some.injEq, Movie.mk.injEq, true_and, and_true]
    push_cast
    ring

theorem reserveN_stable (st : DBState) (i : Nat) (uid : Option Nat) (n0 : Nat)
    (m0 : Movie) (h : getMovie (reserveN st i uid n0) (some i) = some m0)
    (hs : m0.seats ≤ 0) :
    ∀ k : Nat, reserveN st i uid (n0 + k) = reserveN st i uid n0 := by
  intro k
  induction k with
  | zero => rfl
  | succ j ih =>
    show (create_reservation (reserveN st i uid (n0 + j)) (some i) uid).2 = _
    rw [ih, reserve_noseats _ (some i) uid m0 h hs]

/-- A request run alone to completion behaves like the atomic handler:
with a positive counter it books and decrements, otherwise it fails. -/
theorem phase_pair_sequential (sh : ShowState) :
    (0 < sh.seats →
      runSched ⟨sh, .ready, .finished 0⟩ [true, true] =
        ⟨⟨sh.seats - 1, sh.reservations + 1⟩, .finished 201, .finished 0⟩) ∧
    (sh.seats ≤ 0 →
      runSched ⟨sh, .ready, .finished 0⟩ [true, true] =
        ⟨sh, .finished 400, .finished 0⟩) := by
  constructor
  · intro h
    simp [runSched, schedStep, phaseStep, not_le.mpr h]
  · intro h
    simp [runSched, schedStep, phaseStep, h]

end Cine

namespace Cine

/-- C1: on a reservation request whose showing exists with a positive seat
count, the handler returns 201, appends exactly one reservation row bound to
that showing and that user, decrements that showing's counter by exactly one,
and keeps every other showing; all of it in the single returned state, so the
decrement and the insertion happen together or not at all. -/
theorem C1_reservation_success (st : DBState) (mid uid : Option Nat) (m : Movie)
    (h : getMovie st mid = some m) (hs : 0 < m.seats) :
    (create_reservation st mid uid).1 = respReservationCreated ∧
    (create_reservation st mid uid).2.reservations =
      st.reservations ++ [{ movie_id := m.id, user_id := uid, room_select := m.room }] ∧
    getMovie (create_reservation st mid uid).2 mid = some { m with seats := m.seats - 1 } ∧
    OtherMoviesKept st (create_reservation st mid uid).2 m.id := by
  refine ⟨?_, ?_, getMovie_after_reserve st mid uid m h hs,
    others_kept_reserve st mid uid m h hs⟩
  · rw [reserve_success st mid uid m h hs]
  · rw [reserve_success st mid uid m h hs]

/-- Witness for C1 at a concrete store. -/
theorem C1_reservation_success_witness :
    (create_reservation w1State (some 1) (some 7)).1 = respReservationCreated ∧
    (create_reservation w1State (some 1) (some 7)).2.reservations =
      w1State.reservations ++ [{ movie_id := 1, user_id := some 7, room_select := "Room 1" }] ∧
    getMovie (create_reservation w1State (some 1) (some 7)).2 (some 1) =
      some { id := 1, title := "Film", description := none, room := "Room 1",
             seats := 1, total := 2 } ∧
    OtherMoviesKept w1State (create_reservation w1State (some 1) (some 7)).2 1 :=
  C1_reservation_success w1State (some 1) (some 7)
    { id := 1, title := "Film", description := none, room := "Room 1", seats := 2, total := 2 }
    (by decide) (by decide)

/-- C2 counterexample: the creation handler accepts a negative seat count
(only falsy values are rejected), so one operation from the empty store
already violates `0 <= remaining_seats`. -/
theorem C2_counterexample :
    ¬ SeatInvariant
      (run init0 [Op.addShowing (some "Film") none (some "Room 1") (some (-1))]) := by
  decide

/-- C2 amended: over any sequence of the three operations whose showing
creations all carry a nonnegative seat count, every reachable store satisfies
`0 <= remaining_seats <= total_seats` and live reservations per showing never
exceed the total.  Without that restriction the invariant fails, because the
validation lets a negative seat count through. -/
theorem C2_invariant_good_ops (ops : List Op) (hops : ∀ op ∈ ops, GoodOp op) :
    SeatInvariant (run init0 ops) :=
  wf_seatInvariant _ (wf_run init0 ops wf_init hops)

/-- Witness for the amended C2 on a concrete operation sequence. -/
theorem C2_invariant_good_ops_witness : SeatInvariant (run init0 c2Ops) :=
  C2_invariant_good_ops c2Ops (by decide)

/-- C3: the reservation handler answers 404 exactly when the showing is
absent, the no-seats 400 exactly when it exists with a non-positive counter,
and on either failure returns the store unchanged. -/
theorem C3_reservation_failures (st : DBState) (mid uid : Option Nat) :
    ((create_reservation st mid uid).1 = respNotFoundMovie ↔ getMovie st mid = none) ∧
    ((create_reservation st mid uid).1 = respNoSeats ↔ NoSeatsAt st mid) ∧
    ((create_reservation st mid uid).1 ≠ respReservationCreated →
      (create_reservation st mid uid).2 = st) := by
  unfold create_reservation NoSeatsAt
  cases hm : getMovie st mid with
  | none => simp [respNotFoundMovie, respNoSeats]
  | some m =>
    by_cases hs : m.seats ≤ 0
    · simp [hs, respNotFoundMovie, respNoSeats]
    · simp [hs, respNotFoundMovie, respNoSeats, respReservationCreated]

/-- Witness for C3 at a concrete store without the requested showing. -/
theorem C3_reservation_failures_witness :
    ((create_reservation init0 (some 9) (some 7)).1 = respNotFoundMovie ↔
      getMovie init0 (some 9) = none) ∧
    ((create_reservation init0 (some 9) (some 7)).1 = respNoSeats ↔ NoSeatsAt init0 (some 9)) ∧
    ((create_reservation init0 (some 9) (some 7)).1 ≠ respReservationCreated →
      (create_reservation init0 (some 9) (some 7)).2 = init0) :=
  C3_reservation_failures init0 (some 9) (some 7)

/-- C4 counterexample: a request with `seats = -1` (and a valid title and
room) passes the truthiness validation of the source, so the handler answers
201 and inserts the showing — the claim says it must fail with InvalidInput
and create nothing. -/
theorem C4_counterexample :
    (add_showing_movie init0 (some "Film") none (some "Room 1") (some (-1))).1 =
      respMovieAdded ∧
    (add_showing_movie init0 (some "Film") none (some "Room 1") (some (-1))).2.movies =
      [{ id := 1, title := "Film", description := none, room := "Room 1",
         seats := -1, total := -1 }] := by
  decide

/-- C4 amended: the handler rejects with the missing-fields 400 exactly when
title or room is missing or empty, or seats is missing or zero; on that
rejection nothing is created.  A strictly negative seats value is truthy in
Python, passes the check, and does create a showing. -/
theorem C4_validation (st : DBState) (title description room : Option String)
    (seats : Option Int) :
    ((add_showing_movie st title description room seats).1 = respFieldsRequired ↔
      ¬(truthyS title = true ∧ truthyS room = true ∧ truthyI seats = true)) ∧
    ((add_showing_movie st title description room seats).1 = respFieldsRequired →
      (add_showing_movie st title description room seats).2 = st) := by
  unfold add_showing_movie
  by_cases h : (truthyS title && truthyS room && truthyI seats) = true
  · cases hf : st.movies.find? (fun m => m.room == room.getD "") with
    | none =>
      simp only [h, if_true, hf]
      constructor
      · constructor
        · intro hr; exact absurd hr (by decide)
        · intro hr; exact absurd (by simpa [Bool.and_eq_true, and_assoc] using h) hr
      · intro hr; exact absurd hr (by decide)
    | some m0 =>
      simp only [h, if_true, hf]
      constructor
      · constructor
        · intro hr; exact absurd hr (by decide)
        · intro hr; exact absurd (by simpa [Bool.and_eq_true, and_assoc] using h) hr
      · intro hr; exact absurd hr (by decide)
  · simp only [h, if_false]
    refine ⟨⟨fun _ => ?_, fun _ => rfl⟩, fun _ => rfl⟩
    intro hc
    exact h (by simp [hc.1, hc.2.1, hc.2.2])

/-- Witness for C4's amended validation at a concrete request. -/
theorem C4_validation_witness :
    ((add_showing_movie init0 (some "Film") none (some "Room 1") (some 0)).1 =
        respFieldsRequired ↔
      ¬(truthyS (some "Film") = true ∧ truthyS (some "Room 1") = true ∧
        truthyI (some 0) = true)) ∧
    ((add_showing_movie init0 (some "Film") none (some "Room 1") (some 0)).1 =
        respFieldsRequired →
      (add_showing_movie init0 (some "Film") none (some "Room 1") (some 0)).2 = init0) :=
  C4_validation init0 (some "Film") none (some "Room 1") (some 0)

/-- C5: with exactly one seat left, the schedule that lets both requests pass
the availability check before either writes lets both finish with 201 — two
reservation rows for a single seat, and the counter ends at 0 only because
each session wrote its own stale `1 - 1`.  The claim that the two calls never
both succeed is false of the source, which takes no lock between its check
and its write; the spec itself flags this as a latent overbooking bug. -/
theorem C5_both_succeed :
    runSched ⟨⟨1, 0⟩, .ready, .ready⟩ [true, false, true, false] =
      ⟨⟨0, 2⟩, .finished 201, .finished 201⟩ := by
  decide

/-- C6: on a validated request, the room-in-use 400 comes exactly when some
showing already occupies the room; with the room free the showing is created
with its counter equal to the requested seats; and from the fresh store every
operation sequence keeps rooms pairwise distinct. -/
theorem C6_room_conflict (st : DBState) (t d r : Option String) (s : Option Int)
    (ht : truthyS t = true) (hr : truthyS r = true) (hs : truthyI s = true) :
    ((add_showing_movie st t d r s).1 = respRoomInUse ↔ RoomOccupied st (r.getD "")) ∧
    (¬ RoomOccupied st (r.getD "") →
      (add_showing_movie st t d r s).1 = respMovieAdded ∧
      (add_showing_movie st t d r s).2.movies = st.movies ++ [newShowing st t d r s] ∧
      (newShowing st t d r s).seats = s.getD 0) ∧
    RoomsAlwaysDistinct := by
  have hv : (truthyS t && truthyS r && truthyI s) = true := by simp [ht, hr, hs]
  refine ⟨?_, ?_, ?_⟩
  · cases hf : st.movies.find? (fun m => m.room == r.getD "") with
    | some m0 =>
      rw [add_conflict st t d r s m0 hv hf]
      have hocc : RoomOccupied st (r.getD "") :=
        ⟨m0, List.mem_of_find?_eq_some hf, by simpa using List.find?_some hf⟩
      simp [hocc]
    | none =>
      rw [add_created st t d r s hv hf]
      have hnocc : ¬ RoomOccupied st (r.getD "") := by
        rintro ⟨m0, hm0, hroom⟩
        exact List.find?_eq_none.mp hf m0 hm0 (by simp [hroom])
      constructor
      · intro hx
        have hx' : respMovieAdded = respRoomInUse := hx
        exact absurd hx' (by decide)
      · intro hx; exact absurd hx hnocc
  · intro hnocc
    cases hf : st.movies.find? (fun m => m.room == r.getD "") with
    | some m0 =>
      exact absurd ⟨m0, List.mem_of_find?_eq_some hf,
        by simpa using List.find?_some hf⟩ hnocc
    | none =>
      rw [add_created st t d r s hv hf]
      exact ⟨rfl, rfl, rfl⟩
  · intro ops
    exact rooms_run init0 ops (by simp [RoomsDistinct, init0])

/-- Witness for C6: a second showing aimed at the occupied Room 1. -/
theorem C6_room_conflict_witness :
    truthyS (some "Other") = true ∧
    (((add_showing_movie c6State (some "Other") none (some "Room 1") (some 3)).1 =
        respRoomInUse ↔ RoomOccupied c6State "Room 1") ∧
      (¬ RoomOccupied c6State "Room 1" →
        (add_showing_movie c6State (some "Other") none (some "Room 1") (some 3)).1 =
          respMovieAdded ∧
        (add_showing_movie c6State (some "Other") none (some "Room 1") (some 3)).2.movies =
          c6State.movies ++ [newShowing c6State (some "Other") none (some "Room 1") (some 3)] ∧
        (newShowing c6State (some "Other") none (some "Room 1") (some 3)).seats = 3) ∧
      RoomsAlwaysDistinct) :=
  ⟨by decide,
    C6_room_conflict c6State (some "Other") none (some "Room 1") (some 3)
      (by decide) (by decide) (by decide)⟩

/-- C7: both branches of the delete handler behave as specified — a missing
showing gives 404 and no change, an existing one is removed together with all
its reservations in one state transition, leaving none referencing it. -/
theorem C7_delete_showing (st : DBState) (i : Nat) :
    DeleteMissingBehaviour st i ∧ DeleteFoundBehaviour st i := by
  constructor
  · intro hm
    exact delete_missing st i hm
  · intro m hm
    rw [delete_found st i m hm]
    refine ⟨rfl, rfl, rfl, ?_⟩
    unfold resCount
    rw [filter_not_self]
    rfl

/-- Witness for C7 on a store holding two reservations for the showing. -/
theorem C7_delete_showing_witness :
    DeleteMissingBehaviour c7State 1 ∧ DeleteFoundBehaviour c7State 1 :=
  C7_delete_showing c7State 1

/-- C8: starting from a full showing, `n` consecutive requests leave
`total - n` seats while they fit, each of them succeeds, and every request
beyond the capacity fails. -/
theorem C8_depletion (st : DBState) (i : Nat) (uid : Option Nat) (m : Movie)
    (n : Nat) (h : getMovie st (some i) = some m) (h0 : 0 ≤ m.seats)
    (htot : m.seats = m.total) :
    DepletionAt st i uid m n := by
  unfold DepletionAt
  refine ⟨fun hn => ?_, fun hn => ?_, fun hn => ?_⟩
  · have hmk := reserveN_getMovie st i uid m h n (by omega)
    rw [htot] at hmk
    exact hmk
  · have hmk := reserveN_getMovie st i uid m h n (by omega)
    have hpos : 0 < ({ m with seats := m.seats - (n : Int) } : Movie).seats := by
      show 0 < m.seats - (n : Int)
      omega
    rw [reserve_success _ (some i) uid _ hmk hpos]
  · have hn0 : ((m.seats.toNat : Int)) ≤ m.seats := by omega
    have hmk := reserveN_getMovie st i uid m h m.seats.toNat hn0
    have hle : m.seats.toNat ≤ n := by omega
    have hdecomp : n = m.seats.toNat + (n - m.seats.toNat) := by omega
    have hz : ({ m with seats := m.seats - (m.seats.toNat : Int) } : Movie).seats ≤ 0 := by
      show m.seats - (m.seats.toNat : Int) ≤ 0
      omega
    rw [hdecomp, reserveN_stable st i uid m.seats.toNat _ hmk hz,
      reserve_noseats _ (some i) uid _ hmk hz]

/-- Witness for C8 at a concrete store with capacity 2, at `n = 2`. -/
theorem C8_depletion_witness :
    DepletionAt w1State 1 (some 7)
      { id := 1, title := "Film", description := none, room := "Room 1",
        seats := 2, total := 2 } 2 :=
  C8_depletion w1State 1 (some 7)
    { id := 1, title := "Film", description := none, room := "Room 1",
      seats := 2, total := 2 } 2 (by decide) (by decide) (by decide)

/-- C9 counterexample: the handler never looks `user_id` up, so a request
naming the nonexistent user 42 still succeeds and leaves a reservation row
referencing no user row. -/
theorem C9_counterexample :
    (create_reservation c9State (some 1) (some 42)).1 = respReservationCreated ∧
    ¬ RefsExist (create_reservation c9State (some 1) (some 42)).2 := by
  decide

/-- C9 amended: a successful reservation always references an existing
showing (the 404 guard), but the user id is copied from the request without
any existence check. -/
theorem C9_reservation_refs (st : DBState) (mid uid : Option Nat)
    (h : (create_reservation st mid uid).1 = respReservationCreated) :
    ReservesExistingShowing st mid uid := by
  unfold ReservesExistingShowing
  cases hm : getMovie st mid with
  | none =>
    rw [reserve_notfound st mid uid hm] at h
    simp only [] at h
    exact absurd h (by decide)
  | some m =>
    by_cases hs : m.seats ≤ 0
    · rw [reserve_noseats st mid uid m hm hs] at h
      simp only [] at h
      exact absurd h (by decide)
    · exact ⟨m, rfl, by rw [reserve_success st mid uid m hm (not_le.mp hs)]⟩

/-- Witness for the amended C9 at a concrete store. -/
theorem C9_reservation_refs_witness :
    ReservesExistingShowing c9State (some 1) (some 42) :=
  C9_reservation_refs c9State (some 1) (some 42) (by decide)

/-- C10: an unknown username and a known username with a failing password
produce literally the same 401 response, message included. -/
theorem C10_login_indistinguishable (verify : User → Option String → Bool)
    (st : DBState) (u1 p1 u2 p2 : Option String)
    (h1 : findUserByName st u1 = none)
    (h2 : ∀ u, findUserByName st u2 = some u → verify u p2 = false) :
    login verify st u1 p1 = login verify st u2 p2 ∧
    login verify st u1 p1 = .err "Credentials are incorrect. Please try again." 401 := by
  have e1 : login verify st u1 p1 =
      .err "Credentials are incorrect. Please try again." 401 := by
    unfold login
    rw [h1]
  have e2 : login verify st u2 p2 =
      .err "Credentials are incorrect. Please try again." 401 := by
    unfold login
    cases hm : findUserByName st u2 with
    | none => rfl
    | some u => simp [h2 u hm]
  exact ⟨e1.trans e2.symm, e1⟩

/-- Witness for C10: user bob is absent, user alice exists but fails
verification; both requests get the same 401. -/
theorem C10_login_indistinguishable_witness :
    login rejectAll c10State (some "bob") (some "x") =
      login rejectAll c10State (some "alice") (some "y") ∧
    login rejectAll c10State (some "bob") (some "x") =
      .err "Credentials are incorrect. Please try again." 401 :=
  C10_login_indistinguishable rejectAll c10State (some "bob") (some "x")
    (some "alice") (some "y") (by decide) (fun u _ => rfl)

end Cine
